import Mathlib

/-!
# Verification of the nanoGPT training-orchestration script (`train.py`)

A shallow embedding of the orchestration layer of `train.py`: the corpus
sampler (`get_batch`), the learning-rate scheduler (`get_lr`), the evaluation
runner (`estimate_loss`), the resume/initialization logic, and the training
loop driver with its observable side effects (console logging, directory
creation, wandb calls, checkpoint writes, process-group setup/teardown).

Machine floats are modelled by `ℚ` where the program only orders and copies
them (losses, learning-rate configuration inside the driver) and by an
ordered field with an abstract cosine for the scheduler, instantiated at `ℝ`
with `Real.cos` in the theorems.  Model and optimizer state dicts are opaque
blobs (`ℕ`), exactly as the orchestration layer treats them.
-/

namespace NanoGPT

/-- The two corpus splits iterated by `estimate_loss` (`['train', 'val']`). -/
inductive Split where
  | train
  | val
deriving DecidableEq, Repr

/-- `model.train()` / `model.eval()` mode of the wrapped model. -/
inductive Mode where
  | train
  | eval
deriving DecidableEq, Repr

/-- `losses.mean()` over the collected per-batch losses. -/
def mean (l : List ℚ) : ℚ := l.sum / l.length

/-- The inner `for k in range(eval_iters)` loop of `estimate_loss`: collect
the loss of each batch in order, propagating the first exception. -/
def collectLosses (f : ℕ → Except String ℚ) : List ℕ → Except String (List ℚ)
  | [] => .ok []
  | k :: ks => do
    let v ← f k
    let vs ← collectLosses f ks
    pure (v :: vs)

/-- `estimate_loss` (train.py lines 170-183), with the batch/forward pass for
split `s`, index `k` modelled by a possibly-raising supplier `batchLoss`.
The source sets `model.eval()`, runs both split loops, and only then calls
`model.train()`; an exception raised inside the loops propagates before the
`model.train()` line executes, so the returned mode is `.eval` on the error
path and `.train` only on normal completion.  The incoming mode is
overwritten by the initial `model.eval()` either way. -/
def estimate_loss (eval_iters : ℕ) (batchLoss : Split → ℕ → Except String ℚ)
    (_mode : Mode) : Except String (ℚ × ℚ) × Mode :=
  let run : Except String (ℚ × ℚ) := do
    let tr ← collectLosses (batchLoss Split.train) (List.range eval_iters)
    let va ← collectLosses (batchLoss Split.val) (List.range eval_iters)
    pure (mean tr, mean va)
  match run with
  | .ok out => (.ok out, Mode.train)
  | .error e => (.error e, Mode.eval)

/-- `estimate_loss` as it behaves in the training loop, where the batch
supplier never raises: the per-split mean of `eval_iters` batch losses,
returned as the `(train, val)` pair. -/
def estimate_loss_at (eval_iters : ℕ) (lossOf : Split → ℕ → ℚ) : ℚ × ℚ :=
  (mean ((List.range eval_iters).map (lossOf Split.train)),
   mean ((List.range eval_iters).map (lossOf Split.val)))

theorem collectLosses_ok (f : ℕ → ℚ) (l : List ℕ) :
    collectLosses (fun k => Except.ok (f k)) l = Except.ok (l.map f) := by
  induction l with
  | nil => rfl
  | cons a t ih =>
      simp only [collectLosses, ih]
      rfl

/-- With a never-raising batch supplier, `estimate_loss` completes normally
with the per-split means and leaves the model back in training mode. -/
theorem estimate_loss_total (n : ℕ) (lossOf : Split → ℕ → ℚ) (m : Mode) :
    estimate_loss n (fun sp k => .ok (lossOf sp k)) m =
      (.ok (estimate_loss_at n lossOf), Mode.train) := by
  simp only [estimate_loss, estimate_loss_at, collectLosses_ok]
  rfl

/-- `get_lr` (train.py lines 186-197): linear warmup for `warmup_iters`
steps, constant `min_lr` past `lr_decay_iters`, cosine decay in between.
Generic over an ordered field with the cosine and π passed in, so the
definition stays executable; the theorems instantiate `α := ℝ`,
`cos := Real.cos`, `pi := Real.pi`. -/
def get_lr {α : Type} [LinearOrderedField α] (cos : α → α) (pi : α)
    (learning_rate min_lr : α) (warmup_iters lr_decay_iters : ℕ)
    (iter : ℕ) : α :=
  if iter < warmup_iters then
    learning_rate * iter / warmup_iters
  else if lr_decay_iters < iter then
    min_lr
  else
    let decay_ratio : α :=
      ((iter : α) - (warmup_iters : α)) / ((lr_decay_iters : α) - (warmup_iters : α))
    let coeff : α := (1 / 2) * (1 + cos (pi * decay_ratio))
    min_lr + coeff * (learning_rate - min_lr)

/-- `data[i:i+len]` on the token array. -/
def slice (data : List ℕ) (i len : ℕ) : List ℕ := (data.drop i).take len

/-- `get_batch` (train.py lines 114-120): per drawn offset `i`, the input
window `data[i:i+block_size]` and target window `data[i+1:i+1+block_size]`.
The random draw `torch.randint(len(data) - block_size, (batch_size,))` is
modelled by the list `ix` of drawn offsets together with its support
`randintSupport (data.length - block_size)`. -/
def get_batch (data : List ℕ) (block_size : ℕ) (ix : List ℕ) :
    List (List ℕ) × List (List ℕ) :=
  (ix.map (fun i => slice data i block_size),
   ix.map (fun i => slice data (i + 1) block_size))

/-- The support of `torch.randint(high, ...)`: `{0, ..., high - 1}`. -/
def randintSupport (high : ℕ) : Finset ℕ := Finset.range high

/-- The `model_args` dict (train.py line 127): the five model
hyperparameters bundled into every checkpoint and re-validated on resume. -/
structure ModelArgs where
  n_layer : ℕ
  n_head : ℕ
  n_embd : ℕ
  block_size : ℕ
  dropout : ℚ
deriving DecidableEq, Repr

/-- The checkpoint dict (train.py lines 234-240).  The model and optimizer
`state_dict()` blobs are opaque to the orchestration layer. -/
structure Checkpoint where
  model : ℕ
  optimizer : ℕ
  model_args : ModelArgs
  iter_num : ℕ
  best_val_loss : ℚ
deriving DecidableEq, Repr

/-- Observable side effects of one worker process, in program order. -/
inductive Event where
  | consoleLog (msg : String)
  | mkdir (dir : String)
  | initProcessGroup
  | destroyProcessGroup
  | wandbInit
  | wandbLog (iter : ℕ)
  | evalPass (iter : ℕ)
  | trainStep (iter : ℕ)
  | checkpointWrite (path : String) (ckpt : Checkpoint)
deriving DecidableEq, Repr

/-- The configuration surface of train.py (the module-level defaults of
lines 29-62, after any overrides), restricted to the fields the
orchestration logic reads. -/
structure Config where
  out_dir : String
  eval_interval : ℕ
  log_interval : ℕ
  eval_iters : ℕ
  eval_only : Bool
  wandb_log : Bool
  batch_size : ℕ
  block_size : ℕ
  init_from : String
  dropout : ℚ
  n_layer : ℕ
  n_head : ℕ
  n_embd : ℕ
  learning_rate : ℚ
  max_iters : ℕ
  decay_lr : Bool
  compile_model : Bool
deriving DecidableEq, Repr

/-- `model_args = dict(n_layer=..., n_head=..., n_embd=..., block_size=...,
dropout=...)` (train.py line 127). -/
def model_args_of (cfg : Config) : ModelArgs :=
  { n_layer := cfg.n_layer, n_head := cfg.n_head, n_embd := cfg.n_embd,
    block_size := cfg.block_size, dropout := cfg.dropout }

/-- The sentinel `best_val_loss = 1e9` (train.py line 124). -/
def sentinelBestValLoss : ℚ := 1000000000

/-- `ddp = LOCAL_RANK != -1; gpu_id = LOCAL_RANK if ddp else 0`
(train.py lines 96-102). -/
def gpu_id_of (ddp : Bool) (local_rank : ℕ) : ℕ :=
  if ddp then local_rank else 0

/-- The resume-time hyperparameter validation (train.py lines 139-140):
`for k, v in model_args.items(): assert checkpoint_model_args[k] == v`.
The run's `model_args` and the checkpoint's have the same five keys by
construction, so iterating the run's keys checks every stored one. -/
def checkHyperparams (run_args ckpt_args : ModelArgs) : Bool :=
  ckpt_args.n_layer == run_args.n_layer &&
  ckpt_args.n_head == run_args.n_head &&
  ckpt_args.n_embd == run_args.n_embd &&
  ckpt_args.block_size == run_args.block_size &&
  ckpt_args.dropout == run_args.dropout

/-- Result of the model/optimizer initialization section
(train.py lines 122-158): its console output and the driver-owned state it
establishes. -/
structure InitResult where
  events : List Event
  iter_num : ℕ
  best_val_loss : ℚ
  model : ℕ
  optimizer : ℕ
deriving DecidableEq, Repr

/-- The initialization section (train.py lines 122-158 plus the optimizer
load at 156-158).  `iter_num`/`best_val_loss` start at their defaults and
are overwritten only on resume.  `ckpt` is the deserialized checkpoint file
(`none` models a missing/unreadable `ckpt.pt`); `freshModel`,
`pretrainedModel` and `freshOpt` are the opaque states produced by the
model collaborator.  A failed `assert` or load surfaces as `.error` and
aborts the process before the training loop.  (On the resume path the
"Resuming training" print precedes the failing assert; events on error
paths are not tracked, as the process dies anyway.) -/
def driverInit (cfg : Config) (ckpt : Option Checkpoint)
    (freshModel pretrainedModel freshOpt : ℕ) : Except String InitResult :=
  if cfg.init_from = "scratch" then
    .ok { events := [.consoleLog "Initializing a new model from scratch"],
          iter_num := 0, best_val_loss := sentinelBestValLoss,
          model := freshModel, optimizer := freshOpt }
  else if cfg.init_from = "resume" then
    match ckpt with
    | none => .error "CorruptOrMissingCheckpoint"
    | some c =>
      if checkHyperparams (model_args_of cfg) c.model_args then
        .ok { events := [.consoleLog ("Resuming training from " ++ cfg.out_dir)],
              iter_num := c.iter_num, best_val_loss := c.best_val_loss,
              model := c.model, optimizer := c.optimizer }
      else
        .error "AssertionError: for now"
  else if cfg.init_from.startsWith "gpt2" then
    .ok { events := [.consoleLog ("Initializing from OpenAI GPT-2 weights: " ++ cfg.init_from)],
          iter_num := 0, best_val_loss := sentinelBestValLoss,
          model := pretrainedModel, optimizer := freshOpt }
  else
    .error "NameError: model is not defined"

/-- Driver-owned mutable state across loop iterations (train.py
lines 123-124, mutated at 231 and 260). -/
structure LoopState where
  iter_num : ℕ
  best_val_loss : ℚ
deriving DecidableEq, Repr

/-- The evaluate/log/checkpoint block (train.py lines 220-241), executed
when `iter_num % eval_interval == 0 and gpu_id == 0`: run `estimate_loss`,
print the step losses, optionally `wandb.log`, and on a strict improvement
of `best_val_loss` update it and (when `iter_num > 0`) write the checkpoint
to `os.path.join(out_dir, 'ckpt.pt')`.  Returns the emitted events and the
(possibly updated) `best_val_loss`. -/
def evalCheckpointBlock (cfg : Config) (gpu_id : ℕ) (lossOf : ℕ → Split → ℕ → ℚ)
    (mb ob : ℕ) (ma : ModelArgs) (s : LoopState) : List Event × ℚ :=
  if s.iter_num % cfg.eval_interval = 0 ∧ gpu_id = 0 then
    let losses := estimate_loss_at cfg.eval_iters (lossOf s.iter_num)
    let evs := [Event.evalPass s.iter_num,
                Event.consoleLog ("step " ++ toString s.iter_num)]
    let evs := evs ++ (if cfg.wandb_log then [Event.wandbLog s.iter_num] else [])
    if losses.2 < s.best_val_loss then
      if 0 < s.iter_num then
        (evs ++ [Event.checkpointWrite (cfg.out_dir ++ "/ckpt.pt")
                   { model := mb, optimizer := ob, model_args := ma,
                     iter_num := s.iter_num, best_val_loss := losses.2 }],
         losses.2)
      else (evs, losses.2)
    else (evs, s.best_val_loss)
  else ([], s.best_val_loss)

/-- One execution of the `while True:` body (train.py lines 210-264).
Returns the events emitted by this pass, the state after it, and whether
the loop continues (`false` on either `break`).

The learning-rate computation (lines 212-218) mutates only the optimizer's
parameter groups, which are part of the opaque optimizer blob, so it emits
no observable event here.  `mb`/`ob` are the model/optimizer blobs bundled
into a checkpoint, `ma` the run's `model_args`, and `lossOf i sp k` the
loss of eval batch `k` of split `sp` during the evaluation at iteration
`i`. -/
def loopStep (cfg : Config) (gpu_id : ℕ) (lossOf : ℕ → Split → ℕ → ℚ)
    (mb ob : ℕ) (ma : ModelArgs) (s : LoopState) :
    List Event × LoopState × Bool :=
  -- lines 220-241: evaluation, logging, checkpointing (primary only)
  let evalBlock : List Event × ℚ := evalCheckpointBlock cfg gpu_id lossOf mb ob ma s
  let s1 : LoopState := { s with best_val_loss := evalBlock.2 }
  -- lines 242-243: eval-only early break
  if s1.iter_num = 0 ∧ cfg.eval_only then
    (evalBlock.1, s1, false)
  else
    -- lines 245-252: sample a training batch, forward/backward/step
    let evs2 := evalBlock.1 ++ [Event.trainStep s1.iter_num]
    -- lines 257-259: per-iteration telemetry (primary only)
    let evs3 := evs2 ++
      (if s1.iter_num % cfg.log_interval = 0 ∧ gpu_id = 0 then
         [Event.consoleLog ("iter " ++ toString s1.iter_num)]
       else [])
    -- line 260: increment; lines 262-264: termination check
    let s2 : LoopState := { s1 with iter_num := s1.iter_num + 1 }
    if cfg.max_iters ≤ s2.iter_num then (evs3, s2, false) else (evs3, s2, true)

/-- The `while True:` loop, with explicit fuel; `none` means the fuel ran
out before a `break` was reached. -/
def runLoop (cfg : Config) (gpu_id : ℕ) (lossOf : ℕ → Split → ℕ → ℚ)
    (mb ob : ℕ) (ma : ModelArgs) :
    ℕ → LoopState → Option (List Event × LoopState)
  | 0, _ => none
  | fuel + 1, s =>
    let r := loopStep cfg gpu_id lossOf mb ob ma s
    if r.2.2 = true then
      (runLoop cfg gpu_id lossOf mb ob ma fuel r.2.1).map
        fun p => (r.1 ++ p.1, p.2)
    else
      some (r.1, r.2.1)

/-- All pre-loop events of one worker in program order: process-group init
(line 98, ddp only), output-directory creation (lines 104-105, primary
only), the initialization section's console output, the compile notice
(line 162, every rank), and wandb setup (lines 200-201, primary only). -/
def preLoopEvents (cfg : Config) (ddp : Bool) (gpu_id : ℕ)
    (initEvents : List Event) : List Event :=
  (if ddp then [Event.initProcessGroup] else []) ++
  (if gpu_id = 0 then [Event.mkdir cfg.out_dir] else []) ++
  initEvents ++
  (if cfg.compile_model then [Event.consoleLog "compiling the model... (takes a ~minute)"] else []) ++
  (if cfg.wandb_log ∧ gpu_id = 0 then [Event.wandbInit] else [])

/-- One whole worker process (train.py lines 96-266): topology, init,
training loop, and the unconditional `destroy_process_group()` on line 266.
`none` means the fuel did not cover the loop; `.error` models a fatal
exception during initialization (which kills the process before line 266). -/
def runProgram (cfg : Config) (ddp : Bool) (local_rank : ℕ)
    (ckpt : Option Checkpoint) (lossOf : ℕ → Split → ℕ → ℚ)
    (freshModel pretrainedModel freshOpt : ℕ) (fuel : ℕ) :
    Option (Except String (List Event × LoopState)) :=
  let gpu_id := gpu_id_of ddp local_rank
  match driverInit cfg ckpt freshModel pretrainedModel freshOpt with
  | .error e => some (.error e)
  | .ok ir =>
    match runLoop cfg gpu_id lossOf ir.model ir.optimizer (model_args_of cfg)
            fuel { iter_num := ir.iter_num, best_val_loss := ir.best_val_loss } with
    | none => none
    | some (evs, sf) =>
      some (.ok (preLoopEvents cfg ddp gpu_id ir.events ++ evs ++
                   [Event.destroyProcessGroup], sf))

/-- Events of a completed run; `[]` for an aborted run or exhausted fuel. -/
def runEvents : Option (Except String (List Event × LoopState)) → List Event
  | some (.ok (evs, _)) => evs
  | _ => []

/-- Whether the worker ran to completion (reached line 266). -/
def runOk : Option (Except String (List Event × LoopState)) → Bool
  | some (.ok _) => true
  | _ => false

/-- Events of a completed loop; `[]` when the fuel ran out. -/
def loopEvents : Option (List Event × LoopState) → List Event
  | some (evs, _) => evs
  | none => []

/-- Final driver state of a completed loop. -/
def loopFinal : Option (List Event × LoopState) → Option LoopState
  | some (_, sf) => some sf
  | none => none

/-- The checkpoint writes among a list of events, with their paths. -/
def checkpointsIn (evs : List Event) : List (String × Checkpoint) :=
  evs.filterMap fun e =>
    match e with
    | .checkpointWrite p c => some (p, c)
    | _ => none

/-- How many evaluation passes (`estimate_loss` calls) a list of events holds. -/
def countEvalPasses (evs : List Event) : ℕ :=
  (evs.filter fun e =>
    match e with
    | .evalPass _ => true
    | _ => false).length

/-- The iteration numbers at which training steps (batch sample +
forward/backward/optimizer step) happened, in order. -/
def trainStepIters (evs : List Event) : List ℕ :=
  evs.filterMap fun e =>
    match e with
    | .trainStep i => some i
    | _ => none

/-- How many `destroy_process_group()` calls a list of events holds. -/
def countDestroyPG (evs : List Event) : ℕ :=
  (evs.filter fun e =>
    match e with
    | .destroyProcessGroup => true
    | _ => false).length

/-- The console messages train.py prints outside the training loop: the
three initialization-branch prints (lines 130, 134, 147) and the compile
notice (line 162).  These are NOT gated on the worker's rank. -/
def initMessages (cfg : Config) : List String :=
  ["Initializing a new model from scratch",
   "Resuming training from " ++ cfg.out_dir,
   "Initializing from OpenAI GPT-2 weights: " ++ cfg.init_from,
   "compiling the model... (takes a ~minute)"]

/-- The side effects a nonzero-rank worker is still permitted under the
amended primary-only discipline: no checkpoint writes, no directory
creation, no wandb calls, and no console output beyond the ungated
startup/initialization prints. -/
def allowedForNonPrimary (cfg : Config) : Event → Bool
  | .checkpointWrite _ _ => false
  | .mkdir _ => false
  | .wandbInit => false
  | .wandbLog _ => false
  | .consoleLog m => (initMessages cfg).contains m
  | _ => true

/-! ## Theorems -/

/-- C2, counterexample: if the very first eval batch raises, `estimate_loss`
leaves the model in eval mode — training mode is NOT restored on the
exceptional exit, contradicting the claimed scoped (try/finally-style)
toggle.  `model.train()` on line 182 simply never runs when line 177 or 179
raises. -/
theorem c2_cex_mode_stuck_in_eval :
    (estimate_loss 1 (fun _ _ => .error "CUDA out of memory") Mode.train).2
      = Mode.eval ∧ Mode.eval ≠ Mode.train := by
  exact ⟨rfl, by decide⟩

/-- C2, amended: `estimate_loss` restores training mode exactly on normal
completion; when the evaluation raises, the exception propagates with the
model still in eval mode. -/
theorem c2_mode_restored_only_on_normal_exit (n : ℕ)
    (batchLoss : Split → ℕ → Except String ℚ) (m : Mode) :
    (estimate_loss n batchLoss m).2 =
      (match (estimate_loss n batchLoss m).1 with
       | .ok _ => Mode.train
       | .error _ => Mode.eval) := by
  unfold estimate_loss
  dsimp only
  split <;> rfl

/-- C3: with warmup `W > 0` and decay horizon `D > W`, `get_lr` is the
claimed piecewise schedule — linear ramp `peak * i / W` below `W`, constant
`min_lr` above `D`, the cosine interpolation in between — and takes the
claimed boundary values `get_lr 0 = 0`, `get_lr W = peak`,
`get_lr D = min_lr`. -/
theorem c3_get_lr_piecewise (peak mn : ℝ) (W D : ℕ) (hW : 0 < W) (hWD : W < D) :
    (∀ i : ℕ, i < W →
        get_lr Real.cos Real.pi peak mn W D i = peak * i / W) ∧
    (∀ i : ℕ, D < i → get_lr Real.cos Real.pi peak mn W D i = mn) ∧
    (∀ i : ℕ, W ≤ i → i ≤ D →
        get_lr Real.cos Real.pi peak mn W D i =
          mn + 1 / 2 *
            (1 + Real.cos (Real.pi * (((i : ℝ) - (W : ℝ)) / ((D : ℝ) - (W : ℝ)))))
            * (peak - mn)) ∧
    get_lr Real.cos Real.pi peak mn W D 0 = 0 ∧
    get_lr Real.cos Real.pi peak mn W D W = peak ∧
    get_lr Real.cos Real.pi peak mn W D D = mn := by
  have hcast : ((D : ℝ) - (W : ℝ)) ≠ 0 := by
    have : (W : ℝ) < (D : ℝ) := by exact_mod_cast hWD
    exact sub_ne_zero.mpr (ne_of_gt this)
  refine ⟨?_, ?_, ?_, ?_, ?_, ?_⟩
  · intro i h
    simp [get_lr, h]
  · intro i h
    have h1 : ¬ i < W := by omega
    simp [get_lr, h1, h]
  · intro i h1 h2
    have h3 : ¬ i < W := by omega
    have h4 : ¬ D < i := by omega
    simp [get_lr, h3, h4]
  · simp [get_lr, hW]
  · have h1 : ¬ W < W := lt_irrefl W
    have h2 : ¬ D < W := by omega
    simp only [get_lr, h1, h2, if_false]
    rw [sub_self, zero_div, mul_zero, Real.cos_zero]
    ring
  · have h1 : ¬ D < W := by omega
    have h2 : ¬ D < D := lt_irrefl D
    have h3 : ¬ (D : ℕ) < W := by omega
    simp only [get_lr, h3, h2, if_false]
    rw [div_self hcast, mul_one, Real.cos_pi]
    ring

/-- C3, witness at the spec's boundary scenario
`W = 2000, D = 320000, peak = 2.5e-4 = 1/4000, min = 1e-5 = 1/100000`. -/
theorem c3_get_lr_witness :
    0 < 2000 ∧ 2000 < 320000 ∧
    get_lr Real.cos Real.pi ((1 : ℝ) / 4000) (1 / 100000) 2000 320000 0 = 0 ∧
    get_lr Real.cos Real.pi ((1 : ℝ) / 4000) (1 / 100000) 2000 320000 2000 = 1 / 4000 ∧
    get_lr Real.cos Real.pi ((1 : ℝ) / 4000) (1 / 100000) 2000 320000 320000 = 1 / 100000 ∧
    get_lr Real.cos Real.pi ((1 : ℝ) / 4000) (1 / 100000) 2000 320000 500000 = 1 / 100000 := by
  obtain ⟨h1, h2, h3, h4, h5, h6⟩ :=
    c3_get_lr_piecewise ((1 : ℝ) / 4000) (1 / 100000) 2000 320000
      (by decide) (by decide)
  exact ⟨by decide, by decide, h4, h5, h6, h2 500000 (by norm_num)⟩

/-- C5: for any batch of offsets drawn from `torch.randint`'s support
`{0, …, len(data) − block_size − 1}`, `get_batch` yields `batch_size` many
input/target pairs, every window has length exactly `block_size`, the
target window is the input window shifted forward by exactly one token
(input covers `i .. i+L−1`, target covers `i+1 .. i+L`), no window reads
past the end of the split, and the support is exactly the set of offsets
for which both windows fit. -/
theorem c5_get_batch_alignment (data : List ℕ) (L : ℕ) (ix : List ℕ)
    (hix : ∀ i ∈ ix, i ∈ randintSupport (data.length - L)) :
    (get_batch data L ix).1.length = ix.length ∧
    (get_batch data L ix).2.length = ix.length ∧
    (∀ x ∈ (get_batch data L ix).1, x.length = L) ∧
    (∀ y ∈ (get_batch data L ix).2, y.length = L) ∧
    (∀ i ∈ ix,
        i + 1 + L ≤ data.length ∧
        slice data (i + 1) L = (slice data i (L + 1)).drop 1 ∧
        (∀ j, j < L →
           (slice data i L)[j]? = data[i + j]? ∧
           (slice data (i + 1) L)[j]? = data[i + 1 + j]?)) ∧
    (∀ i : ℕ, i ∈ randintSupport (data.length - L) ↔ i + 1 + L ≤ data.length) := by
  have hbound : ∀ i ∈ ix, i + 1 + L ≤ data.length := by
    intro i hi
    have := hix i hi
    simp only [randintSupport, Finset.mem_range] at this
    omega
  have hlen : ∀ i len, i + len ≤ data.length → (slice data i len).length = len := by
    intro i len h
    simp only [slice, List.length_take, List.length_drop]
    omega
  refine ⟨?_, ?_, ?_, ?_, ?_, ?_⟩
  · simp [get_batch]
  · simp [get_batch]
  · intro x hx
    simp only [get_batch, List.mem_map] at hx
    obtain ⟨i, hi, rfl⟩ := hx
    exact hlen i L (by have := hbound i hi; omega)
  · intro y hy
    simp only [get_batch, List.mem_map] at hy
    obtain ⟨i, hi, rfl⟩ := hy
    exact hlen (i + 1) L (by have := hbound i hi; omega)
  · intro i hi
    refine ⟨hbound i hi, ?_, ?_⟩
    · simp only [slice, List.drop_take, Nat.add_sub_cancel, List.drop_drop]
    · intro j hj
      constructor
      · rw [slice, List.getElem?_take_of_lt hj, List.getElem?_drop]
      · rw [slice, List.getElem?_take_of_lt hj, List.getElem?_drop]
  · intro i
    simp only [randintSupport, Finset.mem_range]
    omega

/-- C5, witness: a concrete corpus of 8 tokens with `L = 3` and draws
`ix = [0, 4]` (both inside `randint`'s support `{0, …, 4}`). -/
theorem c5_get_batch_witness :
    (∀ i ∈ [0, 4], i ∈ randintSupport ([10, 11, 12, 13, 14, 15, 16, 17].length - 3)) ∧
    (∀ i ∈ [0, 4],
        i + 1 + 3 ≤ [10, 11, 12, 13, 14, 15, 16, 17].length ∧
        slice [10, 11, 12, 13, 14, 15, 16, 17] (i + 1) 3 =
          (slice [10, 11, 12, 13, 14, 15, 16, 17] i (3 + 1)).drop 1 ∧
        (∀ j, j < 3 →
           (slice [10, 11, 12, 13, 14, 15, 16, 17] i 3)[j]? =
             [10, 11, 12, 13, 14, 15, 16, 17][i + j]? ∧
           (slice [10, 11, 12, 13, 14, 15, 16, 17] (i + 1) 3)[j]? =
             [10, 11, 12, 13, 14, 15, 16, 17][i + 1 + j]?)) := by
  have h := c5_get_batch_alignment [10, 11, 12, 13, 14, 15, 16, 17] 3 [0, 4]
    (by decide)
  exact ⟨by decide, h.2.2.2.2.1⟩

theorem checkHyperparams_iff (a b : ModelArgs) :
    checkHyperparams a b = true ↔ b = a := by
  cases a
  cases b
  simp only [checkHyperparams, Bool.and_eq_true, beq_iff_eq, ModelArgs.mk.injEq]
  tauto

theorem driverInit_resume_ok (cfg : Config) (c : Checkpoint) (fm pm fo : ℕ)
    (hr : cfg.init_from = "resume")
    (hm : checkHyperparams (model_args_of cfg) c.model_args = true) :
    driverInit cfg (some c) fm pm fo =
      .ok { events := [.consoleLog ("Resuming training from " ++ cfg.out_dir)],
            iter_num := c.iter_num, best_val_loss := c.best_val_loss,
            model := c.model, optimizer := c.optimizer } := by
  unfold driverInit
  rw [hr]
  simp [hm]

/-- C6: on `init_from = 'resume'` with a loadable checkpoint whose
hyperparameters pass the validation, the driver state entering the loop
takes `iter_num` and `best_val_loss` from the checkpoint — not their
defaults 0 and the `1e9` sentinel — and the model and optimizer states are
restored from the checkpoint blobs. -/
theorem c6_resume_restores_state (cfg : Config) (c : Checkpoint) (fm pm fo : ℕ)
    (hr : cfg.init_from = "resume")
    (hm : checkHyperparams (model_args_of cfg) c.model_args = true) :
    driverInit cfg (some c) fm pm fo =
      .ok { events := [.consoleLog ("Resuming training from " ++ cfg.out_dir)],
            iter_num := c.iter_num, best_val_loss := c.best_val_loss,
            model := c.model, optimizer := c.optimizer } :=
  driverInit_resume_ok cfg c fm pm fo hr hm

/-- C6, witness: resuming from a checkpoint at iteration 1000 with best
loss 5/2 enters the loop with exactly those values and the checkpoint's
blobs. -/
theorem c6_resume_witness :
    driverInit
      { out_dir := "out", eval_interval := 500, log_interval := 1,
        eval_iters := 50, eval_only := false, wandb_log := false,
        batch_size := 8, block_size := 1024, init_from := "resume",
        dropout := 0, n_layer := 12, n_head := 12, n_embd := 768,
        learning_rate := 1 / 4000, max_iters := 500000, decay_lr := true,
        compile_model := true }
      (some { model := 7, optimizer := 9,
              model_args := { n_layer := 12, n_head := 12, n_embd := 768,
                              block_size := 1024, dropout := 0 },
              iter_num := 1000, best_val_loss := 5 / 2 })
      3 4 5 =
      .ok { events := [.consoleLog "Resuming training from out"],
            iter_num := 1000, best_val_loss := 5 / 2,
            model := 7, optimizer := 9 } := by
  exact c6_resume_restores_state _ _ 3 4 5 rfl (by decide)

/-- C8: on resume, the five model hyperparameters stored in the checkpoint
are validated against those requested for the run; any mismatch aborts
initialization with the assertion failure (no value is adopted), and a full
match is required for initialization to succeed, which then proceeds with
the common hyperparameters. -/
theorem c8_resume_hyperparam_validation (cfg : Config) (c : Checkpoint)
    (fm pm fo : ℕ) (hr : cfg.init_from = "resume") :
    (c.model_args ≠ model_args_of cfg →
       driverInit cfg (some c) fm pm fo = .error "AssertionError: for now") ∧
    (c.model_args = model_args_of cfg →
       driverInit cfg (some c) fm pm fo =
         .ok { events := [.consoleLog ("Resuming training from " ++ cfg.out_dir)],
               iter_num := c.iter_num, best_val_loss := c.best_val_loss,
               model := c.model, optimizer := c.optimizer }) := by
  constructor
  · intro hne
    have hchk : checkHyperparams (model_args_of cfg) c.model_args = false := by
      rcases h : checkHyperparams (model_args_of cfg) c.model_args with _ | _
      · rfl
      · exact absurd ((checkHyperparams_iff _ _).mp h) hne
    unfold driverInit
    rw [hr]
    simp [hchk]
  · intro heq
    exact driverInit_resume_ok cfg c fm pm fo hr
      ((checkHyperparams_iff _ _).mpr heq)

/-- C8, witness: a checkpoint whose `n_layer` disagrees with the run (6 vs
12) makes resume fail fast with the assertion error. -/
theorem c8_resume_hyperparam_witness :
    driverInit
      { out_dir := "out", eval_interval := 500, log_interval := 1,
        eval_iters := 50, eval_only := false, wandb_log := false,
        batch_size := 8, block_size := 1024, init_from := "resume",
        dropout := 0, n_layer := 12, n_head := 12, n_embd := 768,
        learning_rate := 1 / 4000, max_iters := 500000, decay_lr := true,
        compile_model := true }
      (some { model := 7, optimizer := 9,
              model_args := { n_layer := 6, n_head := 12, n_embd := 768,
                              block_size := 1024, dropout := 0 },
              iter_num := 1000, best_val_loss := 5 / 2 })
      3 4 5 = .error "AssertionError: for now" := by
  exact (c8_resume_hyperparam_validation _ _ 3 4 5 rfl).1 (by decide)

@[simp]
theorem checkpointsIn_append (l1 l2 : List Event) :
    checkpointsIn (l1 ++ l2) = checkpointsIn l1 ++ checkpointsIn l2 :=
  List.filterMap_append _ _ _

@[simp]
theorem trainStepIters_append (l1 l2 : List Event) :
    trainStepIters (l1 ++ l2) = trainStepIters l1 ++ trainStepIters l2 :=
  List.filterMap_append _ _ _

@[simp]
theorem countEvalPasses_append (l1 l2 : List Event) :
    countEvalPasses (l1 ++ l2) = countEvalPasses l1 + countEvalPasses l2 := by
  simp [countEvalPasses, List.filter_append]

@[simp]
theorem countDestroyPG_append (l1 l2 : List Event) :
    countDestroyPG (l1 ++ l2) = countDestroyPG l1 + countDestroyPG l2 := by
  simp [countDestroyPG, List.filter_append]

/-- The checkpoint writes of one evaluate/checkpoint block: exactly one,
iff the worker is primary, the iteration is a multiple of `eval_interval`,
the fresh validation loss strictly improves `best_val_loss`, and the
iteration is positive; it goes to the single fixed path and bundles the
blobs, hyperparameters, iteration, and the updated best loss. -/
theorem checkpointsIn_evalCheckpointBlock (cfg : Config) (gpu_id : ℕ)
    (lossOf : ℕ → Split → ℕ → ℚ) (mb ob : ℕ) (ma : ModelArgs) (s : LoopState) :
    checkpointsIn (evalCheckpointBlock cfg gpu_id lossOf mb ob ma s).1 =
      if s.iter_num % cfg.eval_interval = 0 ∧ gpu_id = 0 ∧
         (estimate_loss_at cfg.eval_iters (lossOf s.iter_num)).2 < s.best_val_loss ∧
         0 < s.iter_num
      then [(cfg.out_dir ++ "/ckpt.pt",
             { model := mb, optimizer := ob, model_args := ma,
               iter_num := s.iter_num,
               best_val_loss :=
                 (estimate_loss_at cfg.eval_iters (lossOf s.iter_num)).2 })]
      else [] := by
  unfold evalCheckpointBlock
  dsimp only
  by_cases h1 : s.iter_num % cfg.eval_interval = 0 ∧ gpu_id = 0
  · rw [if_pos h1]
    by_cases h2 : (estimate_loss_at cfg.eval_iters (lossOf s.iter_num)).2 < s.best_val_loss
    · by_cases h3 : 0 < s.iter_num
      · have hc : s.iter_num % cfg.eval_interval = 0 ∧ gpu_id = 0 ∧
            (estimate_loss_at cfg.eval_iters (lossOf s.iter_num)).2 < s.best_val_loss ∧
            0 < s.iter_num := ⟨h1.1, h1.2, h2, h3⟩
        rw [if_pos h2, if_pos h3, if_pos hc]
        split_ifs <;> simp [checkpointsIn]
      · have hc : ¬ (s.iter_num % cfg.eval_interval = 0 ∧ gpu_id = 0 ∧
            (estimate_loss_at cfg.eval_iters (lossOf s.iter_num)).2 < s.best_val_loss ∧
            0 < s.iter_num) := fun hh => h3 hh.2.2.2
        rw [if_pos h2, if_neg h3, if_neg hc]
        split_ifs <;> simp [checkpointsIn]
    · have hc : ¬ (s.iter_num % cfg.eval_interval = 0 ∧ gpu_id = 0 ∧
          (estimate_loss_at cfg.eval_iters (lossOf s.iter_num)).2 < s.best_val_loss ∧
          0 < s.iter_num) := fun hh => h2 hh.2.2.1
      rw [if_neg h2, if_neg hc]
      split_ifs <;> simp [checkpointsIn]
  · have hc : ¬ (s.iter_num % cfg.eval_interval = 0 ∧ gpu_id = 0 ∧
        (estimate_loss_at cfg.eval_iters (lossOf s.iter_num)).2 < s.best_val_loss ∧
        0 < s.iter_num) := fun hh => h1 ⟨hh.1, hh.2.1⟩
    rw [if_neg h1, if_neg hc]
    simp [checkpointsIn]

theorem trainStepIters_evalCheckpointBlock (cfg : Config) (gpu_id : ℕ)
    (lossOf : ℕ → Split → ℕ → ℚ) (mb ob : ℕ) (ma : ModelArgs) (s : LoopState) :
    trainStepIters (evalCheckpointBlock cfg gpu_id lossOf mb ob ma s).1 = [] := by
  unfold evalCheckpointBlock
  dsimp only
  split_ifs <;> simp [trainStepIters]

theorem countEvalPasses_evalCheckpointBlock (cfg : Config) (gpu_id : ℕ)
    (lossOf : ℕ → Split → ℕ → ℚ) (mb ob : ℕ) (ma : ModelArgs) (s : LoopState) :
    countEvalPasses (evalCheckpointBlock cfg gpu_id lossOf mb ob ma s).1 =
      if s.iter_num % cfg.eval_interval = 0 ∧ gpu_id = 0 then 1 else 0 := by
  unfold evalCheckpointBlock
  dsimp only
  split_ifs <;> simp_all [countEvalPasses]

theorem countDestroyPG_evalCheckpointBlock (cfg : Config) (gpu_id : ℕ)
    (lossOf : ℕ → Split → ℕ → ℚ) (mb ob : ℕ) (ma : ModelArgs) (s : LoopState) :
    countDestroyPG (evalCheckpointBlock cfg gpu_id lossOf mb ob ma s).1 = 0 := by
  unfold evalCheckpointBlock
  dsimp only
  split_ifs <;> simp [countDestroyPG]

/-- A nonzero-rank worker's evaluate/checkpoint block is a no-op: the whole
block is gated on `gpu_id == 0`. -/
theorem evalCheckpointBlock_nonprimary (cfg : Config) (gpu_id : ℕ)
    (lossOf : ℕ → Split → ℕ → ℚ) (mb ob : ℕ) (ma : ModelArgs) (s : LoopState)
    (h : gpu_id ≠ 0) :
    evalCheckpointBlock cfg gpu_id lossOf mb ob ma s = ([], s.best_val_loss) := by
  unfold evalCheckpointBlock
  rw [if_neg (by tauto)]

/-- The `while` body on the eval-only early-break path (lines 242-243):
no training step, no increment, loop exits. -/
theorem loopStep_break (cfg : Config) (gpu_id : ℕ) (lossOf : ℕ → Split → ℕ → ℚ)
    (mb ob : ℕ) (ma : ModelArgs) (s : LoopState)
    (h0 : s.iter_num = 0) (he : cfg.eval_only = true) :
    loopStep cfg gpu_id lossOf mb ob ma s =
      ((evalCheckpointBlock cfg gpu_id lossOf mb ob ma s).1,
       ⟨s.iter_num, (evalCheckpointBlock cfg gpu_id lossOf mb ob ma s).2⟩,
       false) := by
  unfold loopStep
  rw [if_pos ⟨h0, he⟩]

/-- The `while` body when the early break does not fire: one training step
at the current iteration, the increment, and the post-increment termination
test. -/
theorem loopStep_next (cfg : Config) (gpu_id : ℕ) (lossOf : ℕ → Split → ℕ → ℚ)
    (mb ob : ℕ) (ma : ModelArgs) (s : LoopState)
    (h : ¬ (s.iter_num = 0 ∧ cfg.eval_only = true)) :
    loopStep cfg gpu_id lossOf mb ob ma s =
      ((evalCheckpointBlock cfg gpu_id lossOf mb ob ma s).1 ++
         [Event.trainStep s.iter_num] ++
         (if s.iter_num % cfg.log_interval = 0 ∧ gpu_id = 0
          then [Event.consoleLog ("iter " ++ toString s.iter_num)]
          else []),
       ⟨s.iter_num + 1, (evalCheckpointBlock cfg gpu_id lossOf mb ob ma s).2⟩,
       decide (s.iter_num + 1 < cfg.max_iters)) := by
  unfold loopStep
  rw [if_neg h]
  by_cases hM : cfg.max_iters ≤ s.iter_num + 1
  · rw [if_pos hM]
    simp [List.append_assoc, Nat.not_lt.mpr hM]
  · rw [if_neg hM]
    simp [List.append_assoc, Nat.lt_of_not_le hM]

theorem driverInit_ok_events (cfg : Config) (ckpt : Option Checkpoint)
    (fm pm fo : ℕ) (ir : InitResult)
    (h : driverInit cfg ckpt fm pm fo = .ok ir) :
    ∃ msg, ir.events = [Event.consoleLog msg] ∧
      (initMessages cfg).contains msg = true := by
  unfold driverInit at h
  split_ifs at h
  · injection h with h'
    exact ⟨_, by rw [← h'], by simp [initMessages]⟩
  · cases ckpt with
    | none => exact absurd h (by simp)
    | some c =>
        dsimp only at h
        split_ifs at h
        injection h with h'
        exact ⟨_, by rw [← h'], by simp [initMessages]⟩
  · injection h with h'
    exact ⟨_, by rw [← h'], by simp [initMessages]⟩

/-- C4: a checkpoint is written by an iteration of the training loop iff
the iteration is a multiple of `eval_interval`, the worker is the primary
(`gpu_id = 0`), the freshly estimated validation loss strictly improves
`best_val_loss`, and the iteration is positive; the write (exactly one per
such iteration) goes to the fixed path `out_dir/ckpt.pt` and bundles the
model blob, optimizer blob, model hyperparameters, current iteration, and
the updated best validation loss.  No phase outside the loop body ever
writes a checkpoint. -/
theorem c4_checkpoint_iff :
    (∀ (cfg : Config) (gpu_id : ℕ) (lossOf : ℕ → Split → ℕ → ℚ)
       (mb ob : ℕ) (ma : ModelArgs) (s : LoopState),
       checkpointsIn (loopStep cfg gpu_id lossOf mb ob ma s).1 =
         if s.iter_num % cfg.eval_interval = 0 ∧ gpu_id = 0 ∧
            (estimate_loss_at cfg.eval_iters (lossOf s.iter_num)).2 < s.best_val_loss ∧
            0 < s.iter_num
         then [(cfg.out_dir ++ "/ckpt.pt",
                { model := mb, optimizer := ob, model_args := ma,
                  iter_num := s.iter_num,
                  best_val_loss :=
                    (estimate_loss_at cfg.eval_iters (lossOf s.iter_num)).2 })]
         else []) ∧
    (∀ (cfg : Config) (ddp : Bool) (gpu_id : ℕ) (ckpt : Option Checkpoint)
       (fm pm fo : ℕ) (ir : InitResult),
       driverInit cfg ckpt fm pm fo = .ok ir →
       checkpointsIn (preLoopEvents cfg ddp gpu_id ir.events) = []) := by
  constructor
  · intro cfg gpu_id lossOf mb ob ma s
    by_cases h : s.iter_num = 0 ∧ cfg.eval_only = true
    · rw [loopStep_break cfg gpu_id lossOf mb ob ma s h.1 h.2]
      exact checkpointsIn_evalCheckpointBlock cfg gpu_id lossOf mb ob ma s
    · rw [loopStep_next cfg gpu_id lossOf mb ob ma s h]
      simp only [checkpointsIn_append,
        checkpointsIn_evalCheckpointBlock cfg gpu_id lossOf mb ob ma s]
      split_ifs <;> simp [checkpointsIn]
  · intro cfg ddp gpu_id ckpt fm pm fo ir h
    obtain ⟨msg, hmsg, -⟩ := driverInit_ok_events cfg ckpt fm pm fo ir h
    unfold preLoopEvents
    rw [hmsg]
    split_ifs <;> simp [checkpointsIn]

theorem runLoop_succ_cont (cfg : Config) (gpu_id : ℕ)
    (lossOf : ℕ → Split → ℕ → ℚ) (mb ob : ℕ) (ma : ModelArgs)
    (fuel : ℕ) (s : LoopState)
    (h : (loopStep cfg gpu_id lossOf mb ob ma s).2.2 = true) :
    runLoop cfg gpu_id lossOf mb ob ma (fuel + 1) s =
      (runLoop cfg gpu_id lossOf mb ob ma fuel
         (loopStep cfg gpu_id lossOf mb ob ma s).2.1).map
        fun p => ((loopStep cfg gpu_id lossOf mb ob ma s).1 ++ p.1, p.2) := by
  rw [runLoop]
  rw [if_pos h]

theorem runLoop_succ_stop (cfg : Config) (gpu_id : ℕ)
    (lossOf : ℕ → Split → ℕ → ℚ) (mb ob : ℕ) (ma : ModelArgs)
    (fuel : ℕ) (s : LoopState)
    (h : (loopStep cfg gpu_id lossOf mb ob ma s).2.2 = false) :
    runLoop cfg gpu_id lossOf mb ob ma (fuel + 1) s =
      some ((loopStep cfg gpu_id lossOf mb ob ma s).1,
            (loopStep cfg gpu_id lossOf mb ob ma s).2.1) := by
  rw [runLoop]
  rw [if_neg (by simp [h])]

theorem trainStepIters_loopStep_next (cfg : Config) (gpu_id : ℕ)
    (lossOf : ℕ → Split → ℕ → ℚ) (mb ob : ℕ) (ma : ModelArgs) (s : LoopState)
    (h : ¬ (s.iter_num = 0 ∧ cfg.eval_only = true)) :
    trainStepIters (loopStep cfg gpu_id lossOf mb ob ma s).1 = [s.iter_num] := by
  rw [loopStep_next cfg gpu_id lossOf mb ob ma s h]
  dsimp only
  rw [trainStepIters_append, trainStepIters_append,
    trainStepIters_evalCheckpointBlock]
  split_ifs <;> simp [trainStepIters]

theorem countDestroyPG_loopStep (cfg : Config) (gpu_id : ℕ)
    (lossOf : ℕ → Split → ℕ → ℚ) (mb ob : ℕ) (ma : ModelArgs) (s : LoopState) :
    countDestroyPG (loopStep cfg gpu_id lossOf mb ob ma s).1 = 0 := by
  by_cases h : s.iter_num = 0 ∧ cfg.eval_only = true
  · rw [loopStep_break cfg gpu_id lossOf mb ob ma s h.1 h.2]
    exact countDestroyPG_evalCheckpointBlock cfg gpu_id lossOf mb ob ma s
  · rw [loopStep_next cfg gpu_id lossOf mb ob ma s h]
    dsimp only
    rw [countDestroyPG_append, countDestroyPG_append,
      countDestroyPG_evalCheckpointBlock]
    split_ifs <;> simp [countDestroyPG]

/-- No iteration of the training loop ever calls
`destroy_process_group()`: that call exists only on line 266, after the
loop. -/
theorem countDestroyPG_runLoop (cfg : Config) (gpu_id : ℕ)
    (lossOf : ℕ → Split → ℕ → ℚ) (mb ob : ℕ) (ma : ModelArgs) :
    ∀ (fuel : ℕ) (s : LoopState) (evs : List Event) (sf : LoopState),
      runLoop cfg gpu_id lossOf mb ob ma fuel s = some (evs, sf) →
      countDestroyPG evs = 0 := by
  intro fuel
  induction fuel with
  | zero => intro s evs sf h; cases h
  | succ f ih =>
    intro s evs sf h
    by_cases hc : (loopStep cfg gpu_id lossOf mb ob ma s).2.2 = true
    · rw [runLoop_succ_cont cfg gpu_id lossOf mb ob ma f s hc] at h
      cases hr : runLoop cfg gpu_id lossOf mb ob ma f
          (loopStep cfg gpu_id lossOf mb ob ma s).2.1 with
      | none => rw [hr] at h; cases h
      | some p =>
          rw [hr] at h
          injection h with h'
          obtain ⟨evs2, sf2⟩ := p
          have h1 : evs = (loopStep cfg gpu_id lossOf mb ob ma s).1 ++ evs2 := by
            have := congrArg Prod.fst h'
            exact this.symm
          rw [h1, countDestroyPG_append, countDestroyPG_loopStep,
            ih _ evs2 sf2 hr]
    · rw [runLoop_succ_stop cfg gpu_id lossOf mb ob ma f s
        (Bool.not_eq_true _ ▸ hc)] at h
      injection h with h'
      have h1 : evs = (loopStep cfg gpu_id lossOf mb ob ma s).1 := by
        have := congrArg Prod.fst h'
        exact this.symm
      rw [h1, countDestroyPG_loopStep]

/-- `init_from = 'scratch'` leaves `iter_num = 0` and the `1e9` sentinel in
place and uses the freshly constructed model and optimizer. -/
theorem driverInit_scratch (cfg : Config) (ckpt : Option Checkpoint)
    (fm pm fo : ℕ) (hs : cfg.init_from = "scratch") :
    driverInit cfg ckpt fm pm fo =
      .ok { events := [.consoleLog "Initializing a new model from scratch"],
            iter_num := 0, best_val_loss := sentinelBestValLoss,
            model := fm, optimizer := fo } := by
  unfold driverInit
  rw [hs]
  simp

/-- The pre-loop phase performs no evaluation pass, no checkpoint write, no
training step, and no process-group teardown. -/
theorem preLoopEvents_counts (cfg : Config) (ddp : Bool) (gpu_id : ℕ)
    (msg : String) :
    countEvalPasses (preLoopEvents cfg ddp gpu_id [Event.consoleLog msg]) = 0 ∧
    checkpointsIn (preLoopEvents cfg ddp gpu_id [Event.consoleLog msg]) = [] ∧
    trainStepIters (preLoopEvents cfg ddp gpu_id [Event.consoleLog msg]) = [] ∧
    countDestroyPG (preLoopEvents cfg ddp gpu_id [Event.consoleLog msg]) = 0 := by
  unfold preLoopEvents
  split_ifs <;>
    simp [countEvalPasses, checkpointsIn, trainStepIters, countDestroyPG]

/-- C10: on both exit paths of a completed run — the `max_iters`
termination break and the eval-only early break — `destroy_process_group()`
(train.py line 266) is executed exactly once, and unconditionally: the
theorem quantifies over `ddp`, so it holds also for non-distributed runs in
which no process group was ever initialized (only the
`init_process_group` call on line 98 is gated on the ddp flag). -/
theorem c10_teardown_exactly_once (cfg : Config) (ddp : Bool) (r : ℕ)
    (ckpt : Option Checkpoint) (lossOf : ℕ → Split → ℕ → ℚ)
    (fm pm fo fuel : ℕ)
    (hok : runOk (runProgram cfg ddp r ckpt lossOf fm pm fo fuel) = true) :
    countDestroyPG (runEvents (runProgram cfg ddp r ckpt lossOf fm pm fo fuel))
      = 1 := by
  rcases hd : driverInit cfg ckpt fm pm fo with e | ir
  · have hrp : runProgram cfg ddp r ckpt lossOf fm pm fo fuel = some (.error e) := by
      unfold runProgram
      rw [hd]
    rw [hrp] at hok
    simp [runOk] at hok
  · rcases hl : runLoop cfg (gpu_id_of ddp r) lossOf ir.model ir.optimizer
        (model_args_of cfg) fuel ⟨ir.iter_num, ir.best_val_loss⟩ with _ | ⟨evs, sf⟩
    · have hrp : runProgram cfg ddp r ckpt lossOf fm pm fo fuel = none := by
        unfold runProgram
        rw [hd]
        dsimp only
        rw [hl]
      rw [hrp] at hok
      simp [runOk] at hok
    · have hrp : runProgram cfg ddp r ckpt lossOf fm pm fo fuel =
          some (.ok (preLoopEvents cfg ddp (gpu_id_of ddp r) ir.events ++ evs ++
                       [Event.destroyProcessGroup], sf)) := by
        unfold runProgram
        rw [hd]
        dsimp only
        rw [hl]
      rw [hrp]
      obtain ⟨msg, hmsg, -⟩ := driverInit_ok_events cfg ckpt fm pm fo ir hd
      have hpre := (preLoopEvents_counts cfg ddp (gpu_id_of ddp r) msg).2.2.2
      have hloop := countDestroyPG_runLoop cfg (gpu_id_of ddp r) lossOf ir.model
        ir.optimizer (model_args_of cfg) fuel _ evs sf hl
      simp only [runEvents, countDestroyPG_append, hmsg, hpre, hloop]
      simp [countDestroyPG]

/-- C7: with `eval_only = true` and a fresh scratch initialization on a
non-distributed run, the driver performs exactly one evaluation pass,
writes no checkpoint (the write is gated on `iter_num > 0`), and
terminates right after that evaluation without ever sampling a training
batch or running a forward/backward/optimizer step through the training
path — one unit of fuel already completes the loop. -/
theorem c7_eval_only_dry_run (cfg : Config) (r : ℕ) (ckpt : Option Checkpoint)
    (lossOf : ℕ → Split → ℕ → ℚ) (fm pm fo fuel : ℕ)
    (hs : cfg.init_from = "scratch") (heo : cfg.eval_only = true)
    (hf : 0 < fuel) :
    runOk (runProgram cfg false r ckpt lossOf fm pm fo fuel) = true ∧
    countEvalPasses (runEvents (runProgram cfg false r ckpt lossOf fm pm fo fuel)) = 1 ∧
    checkpointsIn (runEvents (runProgram cfg false r ckpt lossOf fm pm fo fuel)) = [] ∧
    trainStepIters (runEvents (runProgram cfg false r ckpt lossOf fm pm fo fuel)) = [] := by
  obtain ⟨f, rfl⟩ : ∃ f, fuel = f + 1 := ⟨fuel - 1, by omega⟩
  have hinit := driverInit_scratch cfg ckpt fm pm fo hs
  have hbreak := loopStep_break cfg 0 lossOf fm fo (model_args_of cfg)
    ⟨0, sentinelBestValLoss⟩ rfl heo
  have hstop : (loopStep cfg 0 lossOf fm fo (model_args_of cfg)
      ⟨0, sentinelBestValLoss⟩).2.2 = false := by
    rw [hbreak]
  have hloop := runLoop_succ_stop cfg 0 lossOf fm fo (model_args_of cfg) f
    ⟨0, sentinelBestValLoss⟩ hstop
  have hrp : runProgram cfg false r ckpt lossOf fm pm fo (f + 1) =
      some (.ok (preLoopEvents cfg false 0
            [Event.consoleLog "Initializing a new model from scratch"] ++
          (loopStep cfg 0 lossOf fm fo (model_args_of cfg)
            ⟨0, sentinelBestValLoss⟩).1 ++ [Event.destroyProcessGroup],
        (loopStep cfg 0 lossOf fm fo (model_args_of cfg)
          ⟨0, sentinelBestValLoss⟩).2.1)) := by
    unfold runProgram
    rw [show gpu_id_of false r = 0 from rfl, hinit]
    dsimp only
    rw [hloop]
  rw [hrp]
  have hpre := preLoopEvents_counts cfg false 0
    "Initializing a new model from scratch"
  have hstepev : (loopStep cfg 0 lossOf fm fo (model_args_of cfg)
      ⟨0, sentinelBestValLoss⟩).1 =
      (evalCheckpointBlock cfg 0 lossOf fm fo (model_args_of cfg)
        ⟨0, sentinelBestValLoss⟩).1 := by
    rw [hbreak]
  refine ⟨rfl, ?_, ?_, ?_⟩
  · simp only [runEvents, countEvalPasses_append, hpre.1, hstepev,
      countEvalPasses_evalCheckpointBlock]
    simp [countEvalPasses]
  · simp only [runEvents, checkpointsIn_append, hpre.2.1, hstepev,
      checkpointsIn_evalCheckpointBlock]
    simp [checkpointsIn]
  · simp only [runEvents, trainStepIters_append, hpre.2.2.1, hstepev,
      trainStepIters_evalCheckpointBlock]
    simp [trainStepIters]

/-- From iteration `N`, `max (max_iters - N) 1` units of fuel complete the
loop (when the eval-only break does not apply): the loop exits with
`iter_num = max max_iters (N + 1)` and performs exactly one training step
per visited iteration. -/
theorem runLoop_reaches_max (cfg : Config) (gpu_id : ℕ)
    (lossOf : ℕ → Split → ℕ → ℚ) (mb ob : ℕ) (ma : ModelArgs) :
    ∀ (fuel N : ℕ) (b : ℚ), fuel = max (cfg.max_iters - N) 1 →
      (cfg.eval_only = false ∨ 0 < N) →
      ∃ evs sf,
        runLoop cfg gpu_id lossOf mb ob ma fuel ⟨N, b⟩ = some (evs, sf) ∧
        sf.iter_num = max cfg.max_iters (N + 1) ∧
        trainStepIters evs = List.range' N fuel := by
  intro fuel
  induction fuel with
  | zero =>
    intro N b hf _
    omega
  | succ f ih =>
    intro N b hf h
    have hnb : ¬ (LoopState.iter_num ⟨N, b⟩ = 0 ∧ cfg.eval_only = true) := by
      rcases h with h | h
      · rintro ⟨-, he⟩
        rw [h] at he
        cases he
      · rintro ⟨h0, -⟩
        dsimp at h0
        omega
    have hstep := loopStep_next cfg gpu_id lossOf mb ob ma ⟨N, b⟩ hnb
    have hts := trainStepIters_loopStep_next cfg gpu_id lossOf mb ob ma ⟨N, b⟩ hnb
    by_cases hM : N + 1 < cfg.max_iters
    · have hcont : (loopStep cfg gpu_id lossOf mb ob ma ⟨N, b⟩).2.2 = true := by
        rw [hstep]
        exact decide_eq_true hM
      have hf' : f = max (cfg.max_iters - (N + 1)) 1 := by omega
      obtain ⟨evs2, sf, hrun, hiter, hts2⟩ :=
        ih (N + 1) ((evalCheckpointBlock cfg gpu_id lossOf mb ob ma ⟨N, b⟩).2)
          hf' (Or.inr (by omega))
      refine ⟨(loopStep cfg gpu_id lossOf mb ob ma ⟨N, b⟩).1 ++ evs2, sf, ?_, ?_, ?_⟩
      · rw [runLoop_succ_cont cfg gpu_id lossOf mb ob ma f ⟨N, b⟩ hcont]
        have hs' : (loopStep cfg gpu_id lossOf mb ob ma ⟨N, b⟩).2.1 =
            ⟨N + 1, (evalCheckpointBlock cfg gpu_id lossOf mb ob ma ⟨N, b⟩).2⟩ := by
          rw [hstep]
        rw [hs', hrun]
        rfl
      · rw [hiter]
        omega
      · rw [trainStepIters_append, hts, hts2]
        rfl
    · have hstop : (loopStep cfg gpu_id lossOf mb ob ma ⟨N, b⟩).2.2 = false := by
        rw [hstep]
        exact decide_eq_false hM
      have hfuel1 : f = 0 := by omega
      subst hfuel1
      refine ⟨(loopStep cfg gpu_id lossOf mb ob ma ⟨N, b⟩).1,
        (loopStep cfg gpu_id lossOf mb ob ma ⟨N, b⟩).2.1,
        runLoop_succ_stop cfg gpu_id lossOf mb ob ma 0 ⟨N, b⟩ hstop, ?_, ?_⟩
      · rw [hstep]
        dsimp only
        omega
      · rw [hts]
        rfl

/-- C9: whenever the eval-only early exit does not apply (`eval_only` off,
or the loop starts past iteration 0), the training loop terminates, and it
exits exactly when the per-iteration increment first makes
`iter_num ≥ max_iters`: the final iteration counter is
`max max_iters (N + 1)` when starting from iteration `N`, and the training
steps executed are exactly the iterations `N, N+1, …` up to the exit — in
particular, from `N = 0` with `max_iters > 0` the loop exits with
`iter_num = max_iters` having trained exactly on iterations
`0 … max_iters - 1`, all below `max_iters`. -/
theorem c9_terminates_at_max_iters (cfg : Config) (gpu_id : ℕ)
    (lossOf : ℕ → Split → ℕ → ℚ) (mb ob : ℕ) (ma : ModelArgs)
    (N : ℕ) (b : ℚ) (h : cfg.eval_only = false ∨ 0 < N) :
    (runLoop cfg gpu_id lossOf mb ob ma
       (max (cfg.max_iters - N) 1) ⟨N, b⟩).isSome = true ∧
    (loopFinal (runLoop cfg gpu_id lossOf mb ob ma
       (max (cfg.max_iters - N) 1) ⟨N, b⟩)).map LoopState.iter_num =
      some (max cfg.max_iters (N + 1)) ∧
    trainStepIters (loopEvents (runLoop cfg gpu_id lossOf mb ob ma
       (max (cfg.max_iters - N) 1) ⟨N, b⟩)) =
      List.range' N (max (cfg.max_iters - N) 1) := by
  obtain ⟨evs, sf, hrun, hiter, hts⟩ :=
    runLoop_reaches_max cfg gpu_id lossOf mb ob ma
      (max (cfg.max_iters - N) 1) N b rfl h
  rw [hrun]
  refine ⟨rfl, ?_, ?_⟩
  · simp [loopFinal, hiter]
  · simpa [loopEvents] using hts

/-- On a nonzero-rank worker, one pass of the loop body emits at most its
training-step marker: the evaluation/logging/checkpoint block and the
telemetry print are both gated on `gpu_id == 0`. -/
theorem loopStep_events_nonprimary (cfg : Config) (gpu_id : ℕ)
    (lossOf : ℕ → Split → ℕ → ℚ) (mb ob : ℕ) (ma : ModelArgs) (s : LoopState)
    (h : gpu_id ≠ 0) :
    (loopStep cfg gpu_id lossOf mb ob ma s).1 = [] ∨
    (loopStep cfg gpu_id lossOf mb ob ma s).1 = [Event.trainStep s.iter_num] := by
  by_cases hb : s.iter_num = 0 ∧ cfg.eval_only = true
  · left
    rw [loopStep_break cfg gpu_id lossOf mb ob ma s hb.1 hb.2]
    dsimp only
    rw [evalCheckpointBlock_nonprimary cfg gpu_id lossOf mb ob ma s h]
  · right
    rw [loopStep_next cfg gpu_id lossOf mb ob ma s hb]
    dsimp only
    rw [evalCheckpointBlock_nonprimary cfg gpu_id lossOf mb ob ma s h,
      if_neg (fun hh => h hh.2)]
    simp

theorem runLoop_all_nonprimary (cfg : Config) (gpu_id : ℕ)
    (lossOf : ℕ → Split → ℕ → ℚ) (mb ob : ℕ) (ma : ModelArgs)
    (h : gpu_id ≠ 0) :
    ∀ (fuel : ℕ) (s : LoopState) (evs : List Event) (sf : LoopState),
      runLoop cfg gpu_id lossOf mb ob ma fuel s = some (evs, sf) →
      evs.all (allowedForNonPrimary cfg) = true := by
  intro fuel
  induction fuel with
  | zero => intro s evs sf hr; cases hr
  | succ f ih =>
    intro s evs sf hr
    have hstepall : ((loopStep cfg gpu_id lossOf mb ob ma s).1).all
        (allowedForNonPrimary cfg) = true := by
      rcases loopStep_events_nonprimary cfg gpu_id lossOf mb ob ma s h with h1 | h1 <;>
        rw [h1] <;> simp [allowedForNonPrimary]
    by_cases hc : (loopStep cfg gpu_id lossOf mb ob ma s).2.2 = true
    · rw [runLoop_succ_cont cfg gpu_id lossOf mb ob ma f s hc] at hr
      cases hrec : runLoop cfg gpu_id lossOf mb ob ma f
          (loopStep cfg gpu_id lossOf mb ob ma s).2.1 with
      | none => rw [hrec] at hr; cases hr
      | some p =>
          rw [hrec] at hr
          obtain ⟨evs2, sf2⟩ := p
          injection hr with hr'
          have he : evs = (loopStep cfg gpu_id lossOf mb ob ma s).1 ++ evs2 :=
            (congrArg Prod.fst hr').symm
          rw [he, List.all_append, hstepall, ih _ evs2 sf2 hrec]
          rfl
    · rw [runLoop_succ_stop cfg gpu_id lossOf mb ob ma f s
        (Bool.not_eq_true _ ▸ hc)] at hr
      injection hr with hr'
      have he : evs = (loopStep cfg gpu_id lossOf mb ob ma s).1 :=
        (congrArg Prod.fst hr').symm
      rw [he]
      exact hstepall

/-- C1, amended: a nonzero-rank worker never writes a checkpoint, never
creates the output directory, never makes a wandb call, and never prints
from inside the training loop; its only console output is the ungated
startup/initialization messages (model-init and compile prints), which
every rank emits. -/
theorem c1_amended_nonprimary_side_effects (cfg : Config) (ddp : Bool)
    (r : ℕ) (ckpt : Option Checkpoint) (lossOf : ℕ → Split → ℕ → ℚ)
    (fm pm fo fuel : ℕ) (h : gpu_id_of ddp r ≠ 0) :
    (runEvents (runProgram cfg ddp r ckpt lossOf fm pm fo fuel)).all
      (allowedForNonPrimary cfg) = true := by
  rcases hd : driverInit cfg ckpt fm pm fo with e | ir
  · have hrp : runProgram cfg ddp r ckpt lossOf fm pm fo fuel = some (.error e) := by
      unfold runProgram
      rw [hd]
    rw [hrp]
    rfl
  · rcases hl : runLoop cfg (gpu_id_of ddp r) lossOf ir.model ir.optimizer
        (model_args_of cfg) fuel ⟨ir.iter_num, ir.best_val_loss⟩ with _ | ⟨evs, sf⟩
    · have hrp : runProgram cfg ddp r ckpt lossOf fm pm fo fuel = none := by
        unfold runProgram
        rw [hd]
        dsimp only
        rw [hl]
      rw [hrp]
      rfl
    · have hrp : runProgram cfg ddp r ckpt lossOf fm pm fo fuel =
          some (.ok (preLoopEvents cfg ddp (gpu_id_of ddp r) ir.events ++ evs ++
                       [Event.destroyProcessGroup], sf)) := by
        unfold runProgram
        rw [hd]
        dsimp only
        rw [hl]
      rw [hrp]
      obtain ⟨msg, hmsg, hmem⟩ := driverInit_ok_events cfg ckpt fm pm fo ir hd
      have hpre : (preLoopEvents cfg ddp (gpu_id_of ddp r) ir.events).all
          (allowedForNonPrimary cfg) = true := by
        rw [hmsg]
        unfold preLoopEvents
        have hwb : ¬ (cfg.wandb_log = true ∧ gpu_id_of ddp r = 0) :=
          fun hh => h hh.2
        rw [if_neg h, if_neg hwb]
        have hmem' : msg = "Initializing a new model from scratch" ∨
            msg = "Resuming training from " ++ cfg.out_dir ∨
            msg = "Initializing from OpenAI GPT-2 weights: " ++ cfg.init_from ∨
            msg = "compiling the model... (takes a ~minute)" := by
          simpa [initMessages] using hmem
        split_ifs <;> simp [allowedForNonPrimary, initMessages] <;> tauto
      have hloop := runLoop_all_nonprimary cfg (gpu_id_of ddp r) lossOf ir.model
        ir.optimizer (model_args_of cfg) h fuel _ evs sf hl
      simp [runEvents, List.all_append, hpre, hloop, allowedForNonPrimary]

/-- A small concrete configuration (scratch init, wandb off, compile off,
`eval_interval = log_interval = eval_iters = 1`, `max_iters = 3`) used by
the concrete instantiations below. -/
def cfgDemo : Config :=
  { out_dir := "out", eval_interval := 1, log_interval := 1, eval_iters := 1,
    eval_only := false, wandb_log := false, batch_size := 8,
    block_size := 1024, init_from := "scratch", dropout := 0, n_layer := 12,
    n_head := 12, n_embd := 768, learning_rate := 0, max_iters := 3,
    decay_lr := true, compile_model := false }

/-- C1, counterexample: in a distributed run, the rank-1 worker (nonzero
rank) still prints the model-initialization message to the console — the
prints on train.py lines 130/134/147/162 are not gated on the rank, so a
nonzero-rank worker does produce console-logging side effects. -/
theorem c1_cex_rank1_console_log :
    gpu_id_of true 1 ≠ 0 ∧
    Event.consoleLog "Initializing a new model from scratch" ∈
      runEvents (runProgram { cfgDemo with eval_only := true } true 1 none
        (fun _ _ _ => 0) 0 0 0 1) := by
  decide

/-- C1, witness for the amended claim: the same rank-1 worker's full event
trace stays within the amended discipline — no checkpoint write, no
directory creation, no wandb call, and console output only from the
ungated startup prints. -/
theorem c1_amended_witness :
    gpu_id_of true 1 ≠ 0 ∧
    (runEvents (runProgram { cfgDemo with eval_only := true } true 1 none
        (fun _ _ _ => 0) 0 0 0 1)).all
      (allowedForNonPrimary { cfgDemo with eval_only := true }) = true :=
  ⟨by decide,
   c1_amended_nonprimary_side_effects { cfgDemo with eval_only := true }
     true 1 none (fun _ _ _ => 0) 0 0 0 1 (by decide)⟩

/-- C4, witness: at iteration 500 with best loss 5, constant eval batch
loss 2 and `eval_interval = 1`, the primary's loop body writes exactly one
checkpoint to `out/ckpt.pt` bundling the blobs, hyperparameters, iteration
500, and the new best loss 2; and the concrete scratch pre-loop phase
writes none. -/
theorem c4_checkpoint_witness :
    checkpointsIn (loopStep cfgDemo 0 (fun _ _ _ => 2) 3 4
        (model_args_of cfgDemo) ⟨500, 5⟩).1 =
      [(cfgDemo.out_dir ++ "/ckpt.pt",
        { model := 3, optimizer := 4, model_args := model_args_of cfgDemo,
          iter_num := 500, best_val_loss := 2 })] ∧
    checkpointsIn (preLoopEvents cfgDemo false 0
      [Event.consoleLog "Initializing a new model from scratch"]) = [] := by
  have h1 := c4_checkpoint_iff.1 cfgDemo 0 (fun _ _ _ => 2) 3 4
    (model_args_of cfgDemo) ⟨500, 5⟩
  have h2 := c4_checkpoint_iff.2 cfgDemo false 0 none 3 4 5
    { events := [Event.consoleLog "Initializing a new model from scratch"],
      iter_num := 0, best_val_loss := sentinelBestValLoss,
      model := 3, optimizer := 5 } rfl
  have hm : estimate_loss_at cfgDemo.eval_iters ((fun _ _ _ => (2 : ℚ)) 500)
      = (2, 2) := by
    show estimate_loss_at 1 (fun _ _ => (2 : ℚ)) = (2, 2)
    simp [estimate_loss_at, mean, List.range_succ]
  rw [hm] at h1
  refine ⟨?_, h2⟩
  rw [h1]
  norm_num [cfgDemo]

/-- C7, witness: the concrete eval-only scratch run at rank 0 with one unit
of fuel completes, performs exactly one evaluation pass, writes no
checkpoint, and takes no training step. -/
theorem c7_eval_only_witness :
    runOk (runProgram { cfgDemo with eval_only := true } false 0 none
      (fun _ _ _ => 2) 3 4 5 1) = true ∧
    countEvalPasses (runEvents (runProgram { cfgDemo with eval_only := true }
      false 0 none (fun _ _ _ => 2) 3 4 5 1)) = 1 ∧
    checkpointsIn (runEvents (runProgram { cfgDemo with eval_only := true }
      false 0 none (fun _ _ _ => 2) 3 4 5 1)) = [] ∧
    trainStepIters (runEvents (runProgram { cfgDemo with eval_only := true }
      false 0 none (fun _ _ _ => 2) 3 4 5 1)) = [] :=
  c7_eval_only_dry_run { cfgDemo with eval_only := true } 0 none
    (fun _ _ _ => 2) 3 4 5 1 rfl rfl (by decide)

/-- C9, witness: from iteration 0 with `max_iters = 3`, the loop completes
on `max (3 - 0) 1` units of fuel, exits with `iter_num = max 3 (0 + 1) = 3`,
and trains exactly on iterations `0, 1, 2`. -/
theorem c9_terminates_witness :
    (runLoop cfgDemo 1 (fun _ _ _ => 2) 3 5 (model_args_of cfgDemo)
       (max (cfgDemo.max_iters - 0) 1) ⟨0, sentinelBestValLoss⟩).isSome = true ∧
    (loopFinal (runLoop cfgDemo 1 (fun _ _ _ => 2) 3 5 (model_args_of cfgDemo)
       (max (cfgDemo.max_iters - 0) 1) ⟨0, sentinelBestValLoss⟩)).map
        LoopState.iter_num = some (max cfgDemo.max_iters (0 + 1)) ∧
    trainStepIters (loopEvents (runLoop cfgDemo 1 (fun _ _ _ => 2) 3 5
       (model_args_of cfgDemo) (max (cfgDemo.max_iters - 0) 1)
       ⟨0, sentinelBestValLoss⟩)) = List.range' 0 (max (cfgDemo.max_iters - 0) 1) :=
  c9_terminates_at_max_iters cfgDemo 1 (fun _ _ _ => 2) 3 5
    (model_args_of cfgDemo) 0 sentinelBestValLoss (Or.inl rfl)

/-- C10, witness: a concrete completed non-eval-only run at rank 1 (eval
block never taken) tears the process group down exactly once. -/
theorem c10_teardown_witness :
    runOk (runProgram cfgDemo true 1 none (fun _ _ _ => 0) 0 0 0 3) = true ∧
    countDestroyPG (runEvents (runProgram cfgDemo true 1 none
      (fun _ _ _ => 0) 0 0 0 3)) = 1 :=
  ⟨by decide,
   c10_teardown_exactly_once cfgDemo true 1 none (fun _ _ _ => 0) 0 0 0 3
     (by decide)⟩

end NanoGPT
